import Mathlib

/-!
Verification of the core pipeline of the SECOP II procurement-export service
(`src/app.py`): predicate construction (`construir_consulta_where`), bounded
paginated retrieval (`descargar_datos_paginado`), spreadsheet rendering
(`crear_excel_en_memoria`) and the boundary handler (`handle_query`).

Text is modelled as `List Char`, with Python's string primitives (strip,
split on a separator, single-character replace) defined structurally so that
every definition is executable and decidable.  The upstream HTTP source is
modelled as a function from the request parameters (limit, offset) to a
response; machine integers are modelled as `Int`/`Nat`.
-/

/-- Text values: Python strings as lists of characters. -/
abbrev Str := List Char

/-- The character list of a string literal. -/
def lit (s : String) : Str := s.toList

/-- The single-quote character (code point 39). -/
def qc : Char := Char.ofNat 39

/-- Python `str.strip()`: drop leading and trailing whitespace. -/
def pyStrip (s : Str) : Str :=
  ((s.dropWhile Char.isWhitespace).reverse.dropWhile Char.isWhitespace).reverse

/-- Python `str.split(sep)` for a one-character separator: the list of
(possibly empty) pieces between occurrences of `sep`. -/
def pySplit (sep : Char) : Str → List Str
  | [] => [[]]
  | c :: rest =>
    if c = sep then [] :: pySplit sep rest
    else
      match pySplit sep rest with
      | [] => [[c]]
      | piece :: pieces => (c :: piece) :: pieces

/-- Python `s.replace(q, q + q)` for the single-quote character `q`: double
every single quote in `s`. -/
def doubleQuotes (s : Str) : Str :=
  s.flatMap (fun c => if c = qc then [qc, qc] else [c])

/-- `escapar_sql_mejorado` from `src/app.py`: a falsy (empty) value is
returned unchanged; otherwise every single quote is doubled and the result
is stripped of surrounding whitespace. -/
def escapar_sql_mejorado (texto : Str) : Str :=
  if texto = [] then texto else pyStrip (doubleQuotes texto)

/-- `procesar_terminos_multiples` from `src/app.py`: split the raw value on
commas, keep the pieces that are non-empty after stripping, and escape each
stripped piece, preserving input order. -/
def procesar_terminos_multiples (entrada : Str) : List Str :=
  if entrada = [] then []
  else ((pySplit (',') entrada).filter (fun t => pyStrip t ≠ [])).map
    (fun t => escapar_sql_mejorado (pyStrip t))

/-- Python truthiness of `filtros.get(k)` for an optional string value: a
missing key or an empty string is falsy. -/
def getTruthy (v : Option Str) : Option Str :=
  match v with
  | some s => if s = [] then none else some s
  | none => none

/-- The filter fields read by `construir_consulta_where` and `handle_query`. -/
structure Filtros where
  proceso_de_compra : Option Str := none
  entidad : Option Str := none
  departamento : Option Str := none
  ciudad : Option Str := none
  modalidades : Option Str := none
  estado_del_procedimiento : Option Str := none
  estado_de_apertura_del_proceso : Option Str := none
  fecha_inicio : Option Str := none
  fecha_fin : Option Str := none
  max_registros : Option Int := none

/-- Wrap a term in single quotes, as the query dialect's string literal. -/
def quoteLit (s : Str) : Str := qc :: (s ++ [qc])

/-- Python `sep.join(pieces)`. -/
def joinSep (sep : Str) : List Str → Str
  | [] => []
  | [s] => s
  | s :: rest => s ++ sep ++ joinSep sep rest

/-- The `proceso_de_compra IN (...)` clause of `construir_consulta_where`
(empty list when the field is falsy or yields no terms). -/
def clausula_proceso (v : Option Str) : List Str :=
  match getTruthy v with
  | some s =>
    let numeros := procesar_terminos_multiples s
    if numeros = [] then []
    else [lit ("proceso_de_compra IN (") ++
      joinSep (lit (", ")) (numeros.map quoteLit) ++ lit (")")]
  | none => []

/-- One multi-valued partial-match clause of `construir_consulta_where`: an
OR of case-insensitive `like` comparisons, one per processed term, wrapped in
parentheses (empty list when the field is falsy or yields no terms). -/
def clausula_multiple (campoSql : Str) (v : Option Str) : List Str :=
  match getTruthy v with
  | some s =>
    let terminos := procesar_terminos_multiples s
    if terminos = [] then []
    else [lit ("(") ++ joinSep (lit (" OR "))
      (terminos.map (fun t =>
        lit ("upper(") ++ campoSql ++ lit (") like upper(") ++
          quoteLit (lit ("%") ++ t ++ lit ("%")) ++ lit (")"))) ++ lit (")")]
  | none => []

/-- One exact-match clause of `construir_consulta_where`: equality against
the escaped literal, emitted whenever the raw field value is truthy. -/
def clausula_exacta (campoSql : Str) (v : Option Str) : List Str :=
  match getTruthy v with
  | some s => [campoSql ++ lit (" = ") ++ quoteLit (escapar_sql_mejorado s)]
  | none => []

/-- One date-range clause of `construir_consulta_where`: the raw (unescaped)
field value is interpolated between the comparison operator and the fixed
time-of-day suffix. -/
def clausula_fecha (op : Str) (hora : Str) (v : Option Str) : List Str :=
  match getTruthy v with
  | some s =>
    [lit ("fecha_de_publicacion_del ") ++ op ++ lit (" ") ++
      quoteLit (s ++ lit ("T") ++ hora)]
  | none => []

/-- The ordered clause list built by `construir_consulta_where`: process id,
the four multi-match fields in their fixed order, the two exact-match status
fields, then the two date bounds. -/
def condiciones_where (f : Filtros) : List Str :=
  clausula_proceso f.proceso_de_compra ++
  clausula_multiple (lit ("entidad")) f.entidad ++
  clausula_multiple (lit ("departamento_entidad")) f.departamento ++
  clausula_multiple (lit ("ciudad_entidad")) f.ciudad ++
  clausula_multiple (lit ("modalidad_de_contratacion")) f.modalidades ++
  clausula_exacta (lit ("estado_del_procedimiento")) f.estado_del_procedimiento ++
  clausula_exacta (lit ("estado_de_apertura_del_proceso")) f.estado_de_apertura_del_proceso ++
  clausula_fecha (lit (">=")) (lit ("00:00:00")) f.fecha_inicio ++
  clausula_fecha (lit ("<=")) (lit ("23:59:59")) f.fecha_fin

/-- `construir_consulta_where` from `src/app.py`: the non-empty clauses
joined with `AND` (the empty string when no clause was produced). -/
def construir_consulta_where (f : Filtros) : Str :=
  joinSep (lit (" AND ")) (condiciones_where f)

/-- One parsed CSV page or the final accumulated dataframe: the header
columns and the data rows. -/
structure Frame where
  columns : List Str
  rows : List (List Str)
deriving DecidableEq, Repr

/-- Outcome of one HTTP GET against the source API: a parsed page, a non-2xx
response (which `response.raise_for_status()` turns into a
`requests.exceptions.HTTPError`), or a transport-level failure (timeout or
connection error, raised by `requests.get` itself). -/
inductive Resp where
  | ok (page : Frame)
  | httpErr (status : Nat) (body : Str)
  | transportErr
deriving DecidableEq, Repr

/-- The exception escaping `descargar_datos_paginado`, by category. -/
inductive FetchErr where
  | httpError (status : Nat) (body : Str)
  | transportError
deriving DecidableEq, Repr

/-- One issued HTTP call: the `$limit` and `$offset` query parameters and
the optional `$where` parameter. -/
structure Call where
  limit : Int
  offset : Nat
  whereParam : Option Str
deriving DecidableEq, Repr

/-- `limite_por_pagina` from `descargar_datos_paginado`. -/
def limite_por_pagina : Nat := 10000

/-- `limite_actual` inside the loop of `descargar_datos_paginado`: the
`$limit` requested on the current iteration, `min(limite_por_pagina,
maxRegistros - total)`. -/
def limiteActual (maxRegistros : Int) (total : Nat) : Int :=
  min (limite_por_pagina : Int) (maxRegistros - total)

/-- The query parameters of the HTTP GET issued on one loop iteration: the
computed limit, the current offset, and the `$where` parameter exactly when
the predicate string is non-empty. -/
def mkCall (maxRegistros : Int) (total offset : Nat) (whereClause : Str) : Call :=
  ⟨limiteActual maxRegistros total, offset,
    if whereClause = [] then none else some whereClause⟩

/-- The `while` loop of `descargar_datos_paginado`, with the issued call
trace made explicit.  `source l o` is the upstream response to a GET with
`$limit=l` and `$offset=o`.  The loop runs while the accumulated row count
is below `maxRegistros`; each iteration requests `limiteActual` rows, stops
on an empty or short page (fewer rows than `limite_por_pagina`), and
otherwise advances the offset by `limite_por_pagina`. -/
def descargarLoop (source : Int → Nat → Resp) (whereClause : Str)
    (maxRegistros : Int) (offset total : Nat) (paginas : List Frame)
    (calls : List Call) : List Call × Except FetchErr (List Frame) :=
  if h : (total : Int) < maxRegistros then
    match source (limiteActual maxRegistros total) offset with
    | Resp.transportErr =>
      (calls ++ [mkCall maxRegistros total offset whereClause],
        Except.error FetchErr.transportError)
    | Resp.httpErr s b =>
      (calls ++ [mkCall maxRegistros total offset whereClause],
        Except.error (FetchErr.httpError s b))
    | Resp.ok page =>
      if page.rows.isEmpty then
        (calls ++ [mkCall maxRegistros total offset whereClause], Except.ok paginas)
      else if hshort : page.rows.length < limite_por_pagina then
        (calls ++ [mkCall maxRegistros total offset whereClause],
          Except.ok (paginas ++ [page]))
      else
        descargarLoop source whereClause maxRegistros (offset + limite_por_pagina)
          (total + page.rows.length) (paginas ++ [page])
          (calls ++ [mkCall maxRegistros total offset whereClause])
  else (calls, Except.ok paginas)
termination_by (maxRegistros - (total : Int)).toNat
decreasing_by
  simp only [limite_por_pagina] at hshort ⊢
  omega

/-- `descargar_datos_paginado` from `src/app.py`: run the pagination loop
from offset 0 and concatenate the collected pages in fetch order, taking the
column schema from the first page; with no pages collected the empty
dataframe is returned.  The issued call trace is returned alongside. -/
def descargar_datos_paginado (source : Int → Nat → Resp) (whereClause : Str)
    (maxRegistros : Int) : List Call × Except FetchErr Frame :=
  match descargarLoop source whereClause maxRegistros 0 0 [] [] with
  | (calls, Except.error e) => (calls, Except.error e)
  | (calls, Except.ok []) => (calls, Except.ok ⟨[], []⟩)
  | (calls, Except.ok (p :: ps)) =>
    (calls, Except.ok ⟨p.columns, ((p :: ps).map Frame.rows).flatten⟩)

/-- The data rows carried by an upstream response (none for failures). -/
def respRows (r : Resp) : List (List Str) :=
  match r with
  | Resp.ok page => page.rows
  | Resp.httpErr _ _ => []
  | Resp.transportErr => []

/-- Caption written into cell A1 by `crear_excel_en_memoria`. -/
def bannerText : Str := lit ("Sociedad Colombiana de Consultoria SAS")

/-- Displayed length of a worksheet cell value, `len(str(cell.value or ""))`:
an absent cell or a `None` value reads as the empty string. -/
def dispLen : Option Str → Nat
  | some s => s.length
  | none => 0

/-- Pad a worksheet row with absent cells up to `n` columns (cells not
explicitly written read as empty when iterated). -/
def padTo (n : Nat) (l : List (Option Str)) : List (Option Str) :=
  l ++ List.replicate (n - l.length) none

/-- Greatest worksheet column index created by `crear_excel_en_memoria`: the
banner merge `A1:J1` creates cells in columns 1..10 of row 1, the appended
header row one cell per column name, and each appended data row one cell per
value. -/
def sheetMaxCol (df : Frame) : Nat :=
  max 10 (max df.columns.length ((df.rows.map List.length).foldr max 0))

/-- Greatest worksheet row index created: banner row, header row, then one
worksheet row per data row (a dataframe row has one cell per column). -/
def sheetMaxRow (df : Frame) : Nat := 2 + df.rows.length

/-- Width assigned to one (0-based) column of the cell grid: two more than
the longest displayed value among the column's cells over all rows — the
banner row is part of the grid and is included. -/
def colWidth (grid : List (List (Option Str))) (c : Nat) : Nat :=
  (grid.map (fun row => dispLen (row.getD c none))).foldr max 0 + 2

/-- The observable layout of the worksheet produced by
`crear_excel_en_memoria`: the full cell grid (rows 1..maxRow, each padded to
the sheet's column count), the merged banner range and the registered table
range (first row, first column, last row, last column), and the assigned
column widths in column order. -/
structure ExcelSheet where
  grid : List (List (Option Str))
  merged : Nat × Nat × Nat × Nat
  tableRef : Nat × Nat × Nat × Nat
  colWidths : List Nat
deriving DecidableEq, Repr

/-- `crear_excel_en_memoria` from `src/app.py`: write the banner into A1 and
merge `A1:J1` (always ten columns), append the header row as worksheet row 2
and one worksheet row per data row (rows 3..), register a table over
`A2:{lastColumn}{lastRow}` where the last column and row are the sheet's
maxima, and assign every column a width of two plus its longest displayed
value (measured over all rows, the banner row included). -/
def crear_excel_en_memoria (df : Frame) : ExcelSheet :=
  let mc := sheetMaxCol df
  let grid :=
    padTo mc [some bannerText] ::
    padTo mc (df.columns.map some) ::
    df.rows.map (fun r => padTo mc (r.map some))
  { grid := grid
    merged := (1, 1, 1, 10)
    tableRef := (2, 1, sheetMaxRow df, mc)
    colWidths := (List.range mc).map (colWidth grid) }

/-- Result of the boundary handler: HTTP status code, the workbook artifact
when one was rendered, and the upstream call trace. -/
structure HandleResult where
  status : Nat
  artifact : Option ExcelSheet
  calls : List Call
deriving DecidableEq, Repr

/-- `handle_query` (`POST /api/query`) from `src/app.py`, once past the
external expiration gate: build the predicate, read `max_registros` with
default 50000 and no positivity validation, fetch; an empty dataframe
answers 404 with no workbook rendered; success renders the workbook (200);
`requests.exceptions.HTTPError` (raised by `raise_for_status` on a non-2xx
response) answers 502; any other exception — including transport timeouts
and connection failures — reaches only the generic handler and answers
500. -/
def handle_query (source : Int → Nat → Resp) (filtros : Filtros) : HandleResult :=
  match descargar_datos_paginado source (construir_consulta_where filtros)
      (filtros.max_registros.getD 50000) with
  | (calls, Except.error (FetchErr.httpError _ _)) => ⟨502, none, calls⟩
  | (calls, Except.error FetchErr.transportError) => ⟨500, none, calls⟩
  | (calls, Except.ok df) =>
    if df.rows.isEmpty then ⟨404, none, calls⟩
    else ⟨200, some (crear_excel_en_memoria df), calls⟩

/-- The two-column, two-row table of the workbook round-trip example. -/
def tablaEjemplo : Frame :=
  ⟨[lit ("id"), lit ("name")],
   [[lit ("1"), lit ("Acme")], [lit ("2"), lit ("Beta")]]⟩

/-- A source answering every request with a full page of exactly the
requested number of rows over a one-column schema. -/
def fullSource : Int → Nat → Resp :=
  fun l _ => Resp.ok ⟨[lit ("col")], List.replicate l.toNat [lit ("x")]⟩

/-- A source whose every request fails at transport level (timeout or
connection failure). -/
def timeoutSource : Int → Nat → Resp := fun _ _ => Resp.transportErr

/-- A source answering every request with an HTTP 404 status. -/
def http404Source : Int → Nat → Resp :=
  fun _ _ => Resp.httpErr 404 (lit ("err"))

/-- A source answering every request with a zero-row, one-column page. -/
def emptyPageSource : Int → Nat → Resp := fun _ _ => Resp.ok ⟨[lit ("col")], []⟩

/-- A filter payload with no field set. -/
def filtrosVacios : Filtros := {}

/-- A filter payload requesting at most 100 records and nothing else. -/
def filtrosCap100 : Filtros := { max_registros := some 100 }

/-- A filter payload with a negative record cap. -/
def filtrosCapNeg : Filtros := { max_registros := some (-5) }

/-- A filter payload with a well-formed date range and nothing else. -/
def filtrosFechas : Filtros :=
  { fecha_inicio := some (lit ("2024-01-01")),
    fecha_fin := some (lit ("2024-12-31")) }

/-- A filter payload whose entity and process-status fields are set to a
whitespace-only string. -/
def filtrosBlank : Filtros :=
  { entidad := some (lit ("  ")),
    estado_del_procedimiento := some (lit ("  ")) }

/-- Modelled from the spec (§4.3 width rule) for comparison with the code:
the claimed column width — the longest displayed value among the column's
header and data cells only (banner excluded), plus the fixed padding 2. -/
def claimedColWidth (df : Frame) (c : Nat) : Nat :=
  max (dispLen df.columns[c]?)
    ((df.rows.map (fun r => dispLen r[c]?)).foldr max 0) + 2

/-- Shape of the call trace produced by the pagination loop: the incoming
trace is only ever extended, every newly issued call carries an offset at
least the current one, and the new offsets are strictly increasing, so no
request is ever repeated (no retry). -/
theorem descargarLoop_calls (source : Int → Nat → Resp) (w : Str) (cap : Int)
    (offset total : Nat) (paginas : List Frame) (calls : List Call) :
    ∃ newCalls,
      (descargarLoop source w cap offset total paginas calls).1 = calls ++ newCalls ∧
      (∀ c ∈ newCalls, offset ≤ c.offset) ∧
      newCalls.Pairwise (fun a b => a.offset < b.offset) := by
  induction offset, total, paginas, calls using descargarLoop.induct source w cap with
  | case1 offset total paginas calls h hs =>
    rw [descargarLoop]
    simp only [dif_pos h, hs]
    exact ⟨[mkCall cap total offset w], rfl, by simp [mkCall], by simp⟩
  | case2 offset total paginas calls h s b hs =>
    rw [descargarLoop]
    simp only [dif_pos h, hs]
    exact ⟨[mkCall cap total offset w], rfl, by simp [mkCall], by simp⟩
  | case3 offset total paginas calls h page hs hemp =>
    rw [descargarLoop]
    simp only [dif_pos h, hs, hemp, if_pos]
    exact ⟨[mkCall cap total offset w], rfl, by simp [mkCall], by simp⟩
  | case4 offset total paginas calls h page hs hemp hshort =>
    rw [descargarLoop]
    simp only [dif_pos h, hs, hemp, if_neg, dif_pos hshort]
    exact ⟨[mkCall cap total offset w], rfl, by simp [mkCall], by simp⟩
  | case5 offset total paginas calls h page hs hemp hshort ih =>
    rw [descargarLoop]
    simp only [dif_pos h, hs, hemp, Bool.false_eq_true, if_false, dif_neg hshort]
    obtain ⟨nc, hnc, hoff, hpair⟩ := ih
    refine ⟨mkCall cap total offset w :: nc, ?_, ?_, ?_⟩
    · rw [hnc]
      simp
    · intro c hc
      rcases List.mem_cons.mp hc with hc | hc
      · subst hc
        exact Nat.le_refl _
      · exact Nat.le_trans (Nat.le_add_right _ _) (hoff c hc)
    · refine List.pairwise_cons.mpr ⟨?_, hpair⟩
      intro c hc
      refine Nat.lt_of_lt_of_le ?_ (hoff c hc)
      show offset < offset + limite_por_pagina
      simp [limite_por_pagina]
  | case6 offset total paginas calls h =>
    rw [descargarLoop]
    simp only [dif_neg h]
    exact ⟨[], by simp, by simp, by simp⟩

/-- Main invariant of the pagination loop under a source whose responses are
all successful pages of at most the requested number of rows: the loop
succeeds, only extends the page and call lists, keeps the newly accumulated
row count within the remaining budget, returns exactly the upstream rows in
fetch order, and issues at most one call per started block of
`limite_por_pagina` remaining rows. -/
theorem descargarLoop_ok (source : Int → Nat → Resp) (w : Str) (cap : Int)
    (hsrc : ∀ l o, 0 < l → ∃ p, source l o = Resp.ok p ∧ (p.rows.length : Int) ≤ l)
    (offset total : Nat) (paginas : List Frame) (calls : List Call) :
    ∃ newCalls newPages,
      descargarLoop source w cap offset total paginas calls =
        (calls ++ newCalls, Except.ok (paginas ++ newPages)) ∧
      (newPages.map (fun p => p.rows.length)).sum ≤ (cap - (total : Int)).toNat ∧
      (newPages.map Frame.rows).flatten =
        (newCalls.map (fun c => respRows (source c.limit c.offset))).flatten ∧
      newCalls.length ≤
        ((cap - total).toNat + (limite_por_pagina - 1)) / limite_por_pagina := by
  induction offset, total, paginas, calls using descargarLoop.induct source w cap with
  | case1 offset total paginas calls h hs =>
    obtain ⟨p, hp, _⟩ := hsrc (limiteActual cap total) offset
      (by simp only [limiteActual, limite_por_pagina]; omega)
    rw [hp] at hs
    exact absurd hs (by simp)
  | case2 offset total paginas calls h s b hs =>
    obtain ⟨p, hp, _⟩ := hsrc (limiteActual cap total) offset
      (by simp only [limiteActual, limite_por_pagina]; omega)
    rw [hp] at hs
    exact absurd hs (by simp)
  | case3 offset total paginas calls h page hs hemp =>
    rw [descargarLoop]
    simp only [dif_pos h, hs, hemp, if_pos]
    refine ⟨[mkCall cap total offset w], [], by simp, by simp, ?_, ?_⟩
    · have hpe : page.rows = [] := by
        simpa using hemp
      simp [mkCall, respRows, hs, hpe]
    · simp only [List.length_singleton, limite_por_pagina]
      omega
  | case4 offset total paginas calls h page hs hemp hshort =>
    obtain ⟨p, hp, hle⟩ := hsrc (limiteActual cap total) offset
      (by simp only [limiteActual, limite_por_pagina]; omega)
    rw [hp] at hs
    have hpp : p = page := by
      simpa using hs
    subst hpp
    rw [descargarLoop]
    simp only [dif_pos h, hp, hemp, Bool.false_eq_true, if_false, dif_pos hshort]
    refine ⟨[mkCall cap total offset w], [p], by simp, ?_, ?_, ?_⟩
    · simp only [List.map_cons, List.map_nil, List.sum_cons, List.sum_nil]
      simp only [limiteActual, limite_por_pagina] at hle
      omega
    · simp [mkCall, respRows, hp]
    · simp only [List.length_singleton, limite_por_pagina]
      omega
  | case5 offset total paginas calls h page hs hemp hshort ih =>
    obtain ⟨p, hp, hle⟩ := hsrc (limiteActual cap total) offset
      (by simp only [limiteActual, limite_por_pagina]; omega)
    rw [hp] at hs
    have hpp : p = page := by
      simpa using hs
    subst hpp
    obtain ⟨nc, np, heq, hsum, hrows, hcount⟩ := ih
    rw [descargarLoop]
    simp only [dif_pos h, hp, hemp, Bool.false_eq_true, if_false, dif_neg hshort]
    refine ⟨mkCall cap total offset w :: nc, p :: np, ?_, ?_, ?_, ?_⟩
    · rw [heq]
      simp
    · simp only [List.map_cons, List.sum_cons]
      simp only [limiteActual, limite_por_pagina] at hle
      push_cast at hsum
      omega
    · simp only [List.map_cons, List.flatten_cons]
      rw [hrows]
      congr 1
      simp [mkCall, respRows, hp]
    · simp only [List.length_cons]
      simp only [limiteActual, limite_por_pagina] at hle hcount ⊢
      simp only [limite_por_pagina] at hshort
      omega
  | case6 offset total paginas calls h =>
    rw [descargarLoop]
    simp only [dif_neg h]
    exact ⟨[], [], by simp, by simp, by simp, by simp⟩

/-- C1: with `record_cap = 15000`, any predicate string, and a source that
answers every request with a full page of exactly the requested limit, the
fetch issues exactly two HTTP calls — the first with limit 10000 at offset
0, the second with limit 5000 at offset 10000 — and returns a dataframe
with exactly 15000 rows. -/
theorem C1_cap_enforcement (source : Int → Nat → Resp) (w : Str)
    (hsrc : ∀ l o, 0 < l → ∃ p, source l o = Resp.ok p ∧ (p.rows.length : Int) = l) :
    ∃ df, (descargar_datos_paginado source w 15000).2 = Except.ok df ∧
      df.rows.length = 15000 ∧
      (descargar_datos_paginado source w 15000).1.map (fun c => (c.limit, c.offset)) =
        [((10000 : Int), (0 : Nat)), ((5000 : Int), (10000 : Nat))] := by
  obtain ⟨p₁, hp₁, hl₁⟩ := hsrc 10000 0 (by norm_num)
  obtain ⟨p₂, hp₂, hl₂⟩ := hsrc 5000 10000 (by norm_num)
  have hl₁n : p₁.rows.length = 10000 := by exact_mod_cast hl₁
  have hl₂n : p₂.rows.length = 5000 := by exact_mod_cast hl₂
  have hne₁ : p₁.rows ≠ [] := by
    intro hh
    rw [hh] at hl₁n
    simp at hl₁n
  have hne₂ : p₂.rows ≠ [] := by
    intro hh
    rw [hh] at hl₂n
    simp at hl₂n
  have hla1 : limiteActual 15000 0 = 10000 := by
    unfold limiteActual limite_por_pagina
    push_cast
    omega
  have hla2 : limiteActual 15000 10000 = 5000 := by
    unfold limiteActual limite_por_pagina
    push_cast
    omega
  have hp₁x : source (limiteActual 15000 0) 0 = Resp.ok p₁ := by
    rw [hla1]
    exact hp₁
  have hp₂x : source (limiteActual 15000 10000) 10000 = Resp.ok p₂ := by
    rw [hla2]
    exact hp₂
  have h2 : descargarLoop source w 15000 10000 10000 [p₁] [mkCall 15000 0 0 w] =
      ([mkCall 15000 0 0 w, mkCall 15000 10000 10000 w], Except.ok [p₁, p₂]) := by
    rw [descargarLoop]
    norm_num [hp₂x, hne₂, hl₂n, limite_por_pagina]
  have h1 : descargarLoop source w 15000 0 0 [] [] =
      ([mkCall 15000 0 0 w, mkCall 15000 10000 10000 w], Except.ok [p₁, p₂]) := by
    rw [descargarLoop]
    norm_num [hp₁x, hne₁, hl₁n, limite_por_pagina]
    exact h2
  refine ⟨⟨p₁.columns, ((p₁ :: [p₂]).map Frame.rows).flatten⟩, ?_, ?_, ?_⟩
  · unfold descargar_datos_paginado
    rw [h1]
  · simp [hl₁n, hl₂n]
  · unfold descargar_datos_paginado
    rw [h1]
    simp [mkCall, hla1, hla2]

/-- C2: for every positive record cap and every source whose pages contain
at most the requested limit of rows, the pagination loop terminates (it is a
total function of the model), the fetch succeeds with at most `record_cap`
rows, the returned rows are exactly the upstream pages' rows concatenated in
fetch order, and at most `ceil(record_cap / limite_por_pagina)` HTTP calls
are issued. -/
theorem C2_bounded_pagination (source : Int → Nat → Resp) (w : Str) (cap : Int)
    (hcap : 0 < cap)
    (hsrc : ∀ l o, 0 < l → ∃ p, source l o = Resp.ok p ∧ (p.rows.length : Int) ≤ l) :
    ∃ calls df, descargar_datos_paginado source w cap = (calls, Except.ok df) ∧
      (df.rows.length : Int) ≤ cap ∧
      df.rows = (calls.map (fun c => respRows (source c.limit c.offset))).flatten ∧
      calls.length ≤ (cap.toNat + (limite_por_pagina - 1)) / limite_por_pagina := by
  obtain ⟨nc, np, heq, hsum, hrows, hcount⟩ := descargarLoop_ok source w cap hsrc 0 0 [] []
  simp only [List.nil_append] at heq
  simp only [Nat.cast_zero, sub_zero] at hsum hcount
  refine ⟨nc, ?_⟩
  unfold descargar_datos_paginado
  rw [heq]
  cases np with
  | nil =>
    refine ⟨⟨[], []⟩, rfl, by simp <;> omega, ?_, hcount⟩
    simp only [List.map_nil, List.flatten_nil] at hrows
    exact hrows
  | cons p ps =>
    refine ⟨⟨p.columns, ((p :: ps).map Frame.rows).flatten⟩, rfl, ?_, hrows, hcount⟩
    have hlen : (((p :: ps).map Frame.rows).flatten).length =
        ((p :: ps).map (fun q => q.rows.length)).sum := by
      simp [List.length_flatten, List.map_map, Function.comp_def]
    show ((((p :: ps).map Frame.rows).flatten).length : Int) ≤ cap
    rw [hlen]
    omega

/-- The full-page source satisfies the hypothesis of the cap-enforcement
theorem: every positively-limited request returns exactly `limit` rows. -/
theorem fullSource_ok (l : Int) (o : Nat) (hl : 0 < l) :
    ∃ p, fullSource l o = Resp.ok p ∧ (p.rows.length : Int) = l := by
  refine ⟨_, rfl, ?_⟩
  simp [Int.toNat_of_nonneg hl.le]

/-- Witness for C1: the cap-enforcement theorem applied to the concrete
full-page source and the empty predicate. -/
theorem C1_cap_enforcement_witness :
    ∃ df, (descargar_datos_paginado fullSource [] 15000).2 = Except.ok df ∧
      df.rows.length = 15000 ∧
      (descargar_datos_paginado fullSource [] 15000).1.map (fun c => (c.limit, c.offset)) =
        [((10000 : Int), (0 : Nat)), ((5000 : Int), (10000 : Nat))] :=
  C1_cap_enforcement fullSource [] fullSource_ok

/-- Witness for C2: the bounded-pagination theorem applied to the concrete
full-page source with a cap of 25000. -/
theorem C2_bounded_pagination_witness :
    ∃ calls df, descargar_datos_paginado fullSource [] 25000 = (calls, Except.ok df) ∧
      (df.rows.length : Int) ≤ 25000 ∧
      df.rows = (calls.map (fun c => respRows (fullSource c.limit c.offset))).flatten ∧
      calls.length ≤ ((25000 : Int).toNat + (limite_por_pagina - 1)) / limite_por_pagina :=
  C2_bounded_pagination fullSource [] 25000 (by norm_num)
    (fun l o hl => (fullSource_ok l o hl).imp (fun p hp => ⟨hp.1, le_of_eq hp.2⟩))

/-- The call trace of `descargar_datos_paginado` is the loop's call trace. -/
theorem descargar_calls_eq (source : Int → Nat → Resp) (w : Str) (cap : Int) :
    (descargar_datos_paginado source w cap).1 =
      (descargarLoop source w cap 0 0 [] []).1 := by
  unfold descargar_datos_paginado
  rcases hl : descargarLoop source w cap 0 0 [] [] with ⟨calls, res⟩
  cases res with
  | error e => simp
  | ok l =>
    cases l with
    | nil => simp
    | cons p ps => simp

/-- The call trace reported by the boundary handler is the fetch trace. -/
theorem handle_calls_eq (source : Int → Nat → Resp) (f : Filtros) :
    (handle_query source f).calls =
      (descargar_datos_paginado source (construir_consulta_where f)
        (f.max_registros.getD 50000)).1 := by
  unfold handle_query
  rcases hd : descargar_datos_paginado source (construir_consulta_where f)
    (f.max_registros.getD 50000) with ⟨calls, res⟩
  cases res with
  | error e => cases e <;> simp
  | ok df =>
    by_cases hm : df.rows.isEmpty <;> simp [hm]

/-- C10: a non-positive record cap makes the pagination loop exit before any
HTTP call, so the fetch returns the empty dataframe with an empty call
trace; the boundary, which applies no positivity validation to the
caller-supplied cap, then reports the empty-result outcome (404) with no
workbook. -/
theorem C10_nonpositive_cap (source : Int → Nat → Resp) (f : Filtros) (cap : Int)
    (hcap : cap ≤ 0) (hf : f.max_registros = some cap) :
    descargar_datos_paginado source (construir_consulta_where f) cap =
      ([], Except.ok ⟨[], []⟩) ∧
    handle_query source f = ⟨404, none, []⟩ := by
  have hcond : ¬(((0 : Nat) : Int) < cap) := by
    push_cast
    omega
  have hloop : descargarLoop source (construir_consulta_where f) cap 0 0 [] [] =
      ([], Except.ok []) := by
    rw [descargarLoop, dif_neg hcond]
  have hfetch : descargar_datos_paginado source (construir_consulta_where f) cap =
      ([], Except.ok ⟨[], []⟩) := by
    unfold descargar_datos_paginado
    rw [hloop]
  refine ⟨hfetch, ?_⟩
  have hgd : f.max_registros.getD 50000 = cap := by
    rw [hf]
    rfl
  unfold handle_query
  rw [hgd, hfetch]
  rfl

/-- Witness for C10 with a cap of -5: no call is issued even against a
source that would always time out, and the boundary answers 404. -/
theorem C10_nonpositive_cap_witness :
    descargar_datos_paginado timeoutSource (construir_consulta_where filtrosCapNeg) (-5) =
      ([], Except.ok ⟨[], []⟩) ∧
    handle_query timeoutSource filtrosCapNeg = ⟨404, none, []⟩ :=
  C10_nonpositive_cap timeoutSource filtrosCapNeg (-5) (by norm_num) rfl

/-- C9: whenever the fully paginated fetch succeeds with zero rows, the
boundary answers the not-found outcome 404 with no workbook rendered, and
that outcome is distinct from the bad-gateway (502) and internal-error (500)
outcomes. -/
theorem C9_empty_result (source : Int → Nat → Resp) (f : Filtros)
    (calls : List Call) (df : Frame)
    (hfetch : descargar_datos_paginado source (construir_consulta_where f)
      (f.max_registros.getD 50000) = (calls, Except.ok df))
    (hempty : df.rows = []) :
    handle_query source f = ⟨404, none, calls⟩ ∧
    (404 : Nat) ≠ 502 ∧ (404 : Nat) ≠ 500 := by
  refine ⟨?_, by norm_num, by norm_num⟩
  unfold handle_query
  rw [hfetch]
  simp [hempty]

/-- Witness for C9: an upstream whose first page is empty under a cap of
100 yields the 404 outcome with no workbook after a single call. -/
theorem C9_empty_result_witness :
    handle_query emptyPageSource filtrosCap100 =
      ⟨404, none, [⟨(100 : Int), 0, none⟩]⟩ ∧
    (404 : Nat) ≠ 502 ∧ (404 : Nat) ≠ 500 := by
  have hw : construir_consulta_where filtrosCap100 = [] := by decide
  have hgd : filtrosCap100.max_registros.getD 50000 = 100 := rfl
  have hla : limiteActual 100 0 = 100 := by
    unfold limiteActual limite_por_pagina
    push_cast
    omega
  have hmk : mkCall 100 0 0 [] = ⟨(100 : Int), 0, none⟩ := by
    unfold mkCall
    rw [hla]
    rfl
  have hloop : descargarLoop emptyPageSource [] 100 0 0 [] [] =
      ([⟨(100 : Int), 0, none⟩], Except.ok []) := by
    rw [descargarLoop]
    rw [dif_pos (by norm_num)]
    rw [show emptyPageSource (limiteActual 100 0) 0 = Resp.ok ⟨[lit ("col")], []⟩ from rfl]
    simp [hmk]
  have hfetch : descargar_datos_paginado emptyPageSource
      (construir_consulta_where filtrosCap100)
      (filtrosCap100.max_registros.getD 50000) =
      ([⟨(100 : Int), 0, none⟩], Except.ok ⟨[], []⟩) := by
    rw [hw, hgd]
    unfold descargar_datos_paginado
    rw [hloop]
  exact C9_empty_result emptyPageSource filtrosCap100 _ _ hfetch rfl

/-- C4 (amended): a non-2xx upstream response surfaces as the
`FetchErr.httpError` category and is mapped by the boundary to the
bad-gateway outcome 502, while a transport failure (timeout or connection
error) surfaces as the distinct `FetchErr.transportError` category and falls
through to the generic internal-error outcome 500; in both cases no workbook
is rendered, and no request is ever repeated (all issued calls have pairwise
distinct offsets). -/
theorem C4_error_mapping (source : Int → Nat → Resp) (f : Filtros) :
    (∀ s b, (descargar_datos_paginado source (construir_consulta_where f)
        (f.max_registros.getD 50000)).2 = Except.error (FetchErr.httpError s b) →
      (handle_query source f).status = 502 ∧ (handle_query source f).artifact = none) ∧
    ((descargar_datos_paginado source (construir_consulta_where f)
        (f.max_registros.getD 50000)).2 = Except.error FetchErr.transportError →
      (handle_query source f).status = 500 ∧ (handle_query source f).artifact = none) ∧
    (handle_query source f).calls.Pairwise (fun a b => a.offset ≠ b.offset) := by
  have hpair : (handle_query source f).calls.Pairwise (fun a b => a.offset ≠ b.offset) := by
    rw [handle_calls_eq, descargar_calls_eq]
    obtain ⟨nc, hnc, hoff, hp⟩ := descargarLoop_calls source
      (construir_consulta_where f) (f.max_registros.getD 50000) 0 0 [] []
    rw [hnc]
    simp only [List.nil_append]
    exact hp.imp (fun hlt => Nat.ne_of_lt hlt)
  refine ⟨?_, ?_, hpair⟩ <;>
    [skip; skip] <;>
    first
    | (intro s b herr
       unfold handle_query
       rcases hd : descargar_datos_paginado source (construir_consulta_where f)
         (f.max_registros.getD 50000) with ⟨calls, res⟩
       rw [hd] at herr
       simp only at herr
       subst herr
       exact ⟨rfl, rfl⟩)
    | (intro herr
       unfold handle_query
       rcases hd : descargar_datos_paginado source (construir_consulta_where f)
         (f.max_registros.getD 50000) with ⟨calls, res⟩
       rw [hd] at herr
       simp only at herr
       subst herr
       exact ⟨rfl, rfl⟩)

/-- The loop's very first call against an always-timing-out source fails at
transport level after exactly one issued call. -/
theorem timeout_first_call (w : Str) (cap : Int) (hcap : 0 < cap) :
    descargar_datos_paginado timeoutSource w cap =
      ([mkCall cap 0 0 w], Except.error FetchErr.transportError) := by
  have hcond : ((0 : Nat) : Int) < cap := by exact_mod_cast hcap
  have hloop : descargarLoop timeoutSource w cap 0 0 [] [] =
      ([mkCall cap 0 0 w], Except.error FetchErr.transportError) := by
    rw [descargarLoop]
    rw [dif_pos hcond]
    rfl
  unfold descargar_datos_paginado
  rw [hloop]

/-- C4 counterexample: a transport failure (timeout) on the first call is
answered by the boundary with the generic internal-error outcome 500, not
the bad-gateway outcome 502 claimed for it — transport failures do not
surface as the same category as non-2xx responses. -/
theorem C4_counterexample :
    (handle_query timeoutSource filtrosVacios).status = 500 ∧
    (handle_query timeoutSource filtrosVacios).status ≠ 502 := by
  have hfetch := timeout_first_call
    (construir_consulta_where filtrosVacios)
    (filtrosVacios.max_registros.getD 50000) (by decide)
  have hh : handle_query timeoutSource filtrosVacios =
      ⟨500, none, [mkCall (filtrosVacios.max_registros.getD 50000) 0 0
        (construir_consulta_where filtrosVacios)]⟩ := by
    unfold handle_query
    rw [hfetch]
  rw [hh]
  exact ⟨rfl, by norm_num⟩

/-- The loop's first call against an always-404 source raises the HTTP-error
category after exactly one issued call. -/
theorem http404_first_call (w : Str) (cap : Int) (hcap : 0 < cap) :
    descargar_datos_paginado http404Source w cap =
      ([mkCall cap 0 0 w], Except.error (FetchErr.httpError 404 (lit ("err")))) := by
  have hcond : ((0 : Nat) : Int) < cap := by exact_mod_cast hcap
  have hloop : descargarLoop http404Source w cap 0 0 [] [] =
      ([mkCall cap 0 0 w], Except.error (FetchErr.httpError 404 (lit ("err")))) := by
    rw [descargarLoop]
    rw [dif_pos hcond]
    rfl
  unfold descargar_datos_paginado
  rw [hloop]

/-- Witness for C4: the error-mapping theorem applied to the always-404
source with an empty filter payload. -/
theorem C4_error_mapping_witness :
    ((handle_query http404Source filtrosVacios).status = 502 ∧
      (handle_query http404Source filtrosVacios).artifact = none) ∧
    (handle_query http404Source filtrosVacios).calls.Pairwise
      (fun a b => a.offset ≠ b.offset) := by
  have t := C4_error_mapping http404Source filtrosVacios
  have hfetch := http404_first_call
    (construir_consulta_where filtrosVacios)
    (filtrosVacios.max_registros.getD 50000) (by decide)
  refine ⟨t.1 404 (lit ("err")) ?_, t.2.2⟩
  rw [hfetch]

/-- C3 counterexample: with a start date containing a single quote, the
emitted clause interpolates the raw value — it is not the quote-doubled,
trimmed form the claim describes. -/
theorem C3_counterexample :
    condiciones_where { fecha_inicio := some (lit ("20") ++ [qc] ++ lit ("25")) } =
      [lit ("fecha_de_publicacion_del >= ") ++ [qc] ++
        (lit ("20") ++ [qc] ++ lit ("25")) ++ lit ("T00:00:00") ++ [qc]] ∧
    condiciones_where { fecha_inicio := some (lit ("20") ++ [qc] ++ lit ("25")) } ≠
      [lit ("fecha_de_publicacion_del >= ") ++ [qc] ++
        escapar_sql_mejorado (lit ("20") ++ [qc] ++ lit ("25")) ++
        lit ("T00:00:00") ++ [qc]] := by
  decide

/-- C3 (amended): a truthy start or end date contributes its comparison
clause with the raw field value interpolated entirely unchanged — no
quote-doubling, no trimming and no validation are applied to date values by
this component. -/
theorem C3_dates_raw (f : Filtros) :
    (∀ d, f.fecha_inicio = some d → d ≠ [] →
      (lit ("fecha_de_publicacion_del >= ") ++ [qc] ++ d ++ lit ("T00:00:00") ++ [qc]) ∈
        condiciones_where f) ∧
    (∀ d, f.fecha_fin = some d → d ≠ [] →
      (lit ("fecha_de_publicacion_del <= ") ++ [qc] ++ d ++ lit ("T23:59:59") ++ [qc]) ∈
        condiciones_where f) := by
  have h1 : ∀ d : Str,
      lit ("fecha_de_publicacion_del ") ++ lit (">=") ++ lit (" ") ++
        quoteLit (d ++ lit ("T") ++ lit ("00:00:00")) =
      lit ("fecha_de_publicacion_del >= ") ++ [qc] ++ d ++ lit ("T00:00:00") ++ [qc] := by
    intro d
    have ha : lit ("fecha_de_publicacion_del >= ") =
        lit ("fecha_de_publicacion_del ") ++ lit (">=") ++ lit (" ") := by decide
    have hb : lit ("T00:00:00") = lit ("T") ++ lit ("00:00:00") := by decide
    rw [ha, hb]
    simp [quoteLit, List.append_assoc]
  have h2 : ∀ d : Str,
      lit ("fecha_de_publicacion_del ") ++ lit ("<=") ++ lit (" ") ++
        quoteLit (d ++ lit ("T") ++ lit ("23:59:59")) =
      lit ("fecha_de_publicacion_del <= ") ++ [qc] ++ d ++ lit ("T23:59:59") ++ [qc] := by
    intro d
    have ha : lit ("fecha_de_publicacion_del <= ") =
        lit ("fecha_de_publicacion_del ") ++ lit ("<=") ++ lit (" ") := by decide
    have hb : lit ("T23:59:59") = lit ("T") ++ lit ("23:59:59") := by decide
    rw [ha, hb]
    simp [quoteLit, List.append_assoc]
  constructor
  · intro d hd hne
    rw [← h1 d]
    simp [condiciones_where, clausula_fecha, getTruthy, hd, hne]
  · intro d hd hne
    rw [← h2 d]
    simp [condiciones_where, clausula_fecha, getTruthy, hd, hne]

/-- Witness for C3 (amended) at a concrete date range. -/
theorem C3_dates_raw_witness :
    (lit ("fecha_de_publicacion_del >= ") ++ [qc] ++ lit ("2024-01-01") ++
      lit ("T00:00:00") ++ [qc]) ∈ condiciones_where filtrosFechas ∧
    (lit ("fecha_de_publicacion_del <= ") ++ [qc] ++ lit ("2024-12-31") ++
      lit ("T23:59:59") ++ [qc]) ∈ condiciones_where filtrosFechas :=
  ⟨(C3_dates_raw filtrosFechas).1 (lit ("2024-01-01")) rfl (by decide),
   (C3_dates_raw filtrosFechas).2 (lit ("2024-12-31")) rfl (by decide)⟩

/-- A multi-valued clause is dropped when term processing yields nothing. -/
theorem clausula_multiple_empty (c : Str) (s : Str)
    (h : procesar_terminos_multiples s = []) :
    clausula_multiple c (some s) = [] := by
  by_cases hs : s = [] <;> simp [clausula_multiple, getTruthy, hs, h]

/-- The process-id clause is dropped when term processing yields nothing. -/
theorem clausula_proceso_empty (s : Str)
    (h : procesar_terminos_multiples s = []) :
    clausula_proceso (some s) = [] := by
  by_cases hs : s = [] <;> simp [clausula_proceso, getTruthy, hs, h]

/-- An absent multi-valued field contributes no clause. -/
theorem clausula_multiple_none (c : Str) : clausula_multiple c none = [] := rfl

/-- An absent process-id field contributes no clause. -/
theorem clausula_proceso_none : clausula_proceso none = [] := rfl

/-- C5 counterexample: setting the process-status field to a whitespace-only
string emits the clause comparing against the empty literal — the field is
not treated as absent. -/
theorem C5_counterexample :
    condiciones_where { estado_del_procedimiento := some (lit (" ")) } =
      [lit ("estado_del_procedimiento = ") ++ [qc, qc]] ∧
    condiciones_where { estado_del_procedimiento := some (lit (" ")) } ≠ [] := by
  decide

/-- C5 (amended): the process-id field and the four multi-match fields
contribute no clause when their value yields no non-empty terms after
trimming (the predicate equals the one with the field absent), but a truthy
exact-match status field whose escaped value is empty — e.g. a
whitespace-only string — DOES emit an equality clause against the empty
literal. -/
theorem C5_empty_terms (f : Filtros) (s : Str) :
    (f.proceso_de_compra = some s → procesar_terminos_multiples s = [] →
      condiciones_where f = condiciones_where { f with proceso_de_compra := none }) ∧
    (f.entidad = some s → procesar_terminos_multiples s = [] →
      condiciones_where f = condiciones_where { f with entidad := none }) ∧
    (f.departamento = some s → procesar_terminos_multiples s = [] →
      condiciones_where f = condiciones_where { f with departamento := none }) ∧
    (f.ciudad = some s → procesar_terminos_multiples s = [] →
      condiciones_where f = condiciones_where { f with ciudad := none }) ∧
    (f.modalidades = some s → procesar_terminos_multiples s = [] →
      condiciones_where f = condiciones_where { f with modalidades := none }) ∧
    (f.estado_del_procedimiento = some s → s ≠ [] → escapar_sql_mejorado s = [] →
      (lit ("estado_del_procedimiento = ") ++ [qc, qc]) ∈ condiciones_where f) ∧
    (f.estado_de_apertura_del_proceso = some s → s ≠ [] → escapar_sql_mejorado s = [] →
      (lit ("estado_de_apertura_del_proceso = ") ++ [qc, qc]) ∈ condiciones_where f) := by
  have he1 : lit ("estado_del_procedimiento = ") ++ [qc, qc] =
      lit ("estado_del_procedimiento") ++ lit (" = ") ++ quoteLit [] := by decide
  have he2 : lit ("estado_de_apertura_del_proceso = ") ++ [qc, qc] =
      lit ("estado_de_apertura_del_proceso") ++ lit (" = ") ++ quoteLit [] := by decide
  refine ⟨?_, ?_, ?_, ?_, ?_, ?_, ?_⟩
  · intro hd ht
    simp [condiciones_where, hd, clausula_proceso_empty _ ht, clausula_proceso_none]
  · intro hd ht
    simp [condiciones_where, hd, clausula_multiple_empty _ _ ht, clausula_multiple_none]
  · intro hd ht
    simp [condiciones_where, hd, clausula_multiple_empty _ _ ht, clausula_multiple_none]
  · intro hd ht
    simp [condiciones_where, hd, clausula_multiple_empty _ _ ht, clausula_multiple_none]
  · intro hd ht
    simp [condiciones_where, hd, clausula_multiple_empty _ _ ht, clausula_multiple_none]
  · intro hd hne hesc
    rw [he1]
    simp [condiciones_where, clausula_exacta, getTruthy, hd, hne, hesc]
  · intro hd hne hesc
    rw [he2]
    simp [condiciones_where, clausula_exacta, getTruthy, hd, hne, hesc]

/-- Witness for C5 (amended): a whitespace-only entity field changes
nothing, while a whitespace-only status field emits an empty-literal
equality clause. -/
theorem C5_empty_terms_witness :
    condiciones_where filtrosBlank =
      condiciones_where { filtrosBlank with entidad := none } ∧
    (lit ("estado_del_procedimiento = ") ++ [qc, qc]) ∈ condiciones_where filtrosBlank :=
  ⟨(C5_empty_terms filtrosBlank (lit ("  "))).2.1 rfl (by decide),
   (C5_empty_terms filtrosBlank (lit ("  "))).2.2.2.2.2.1 rfl (by decide) (by decide)⟩

/-- C6 counterexample: the registered table region of the example workbook
is rows 2–4 but columns 1–10 (reference A2:J4) because the banner merge
creates cells through column J — it does not span exactly the 2 table
columns. -/
theorem C6_counterexample :
    (crear_excel_en_memoria tablaEjemplo).tableRef = (2, 1, 4, 10) ∧
    (crear_excel_en_memoria tablaEjemplo).tableRef ≠ (2, 1, 4, 2) := by
  decide

/-- C6 (amended): the example workbook has header row `id`,`name` as
worksheet row 2 and the two data rows unmodified in order as rows 3 and 4
(remaining cells empty), and the registered table region spans the 3 rows
2–4 but all 10 sheet columns (the banner merge extends the sheet to 10
columns). -/
theorem C6_workbook_roundtrip :
    (crear_excel_en_memoria tablaEjemplo).grid.getD 1 [] =
      [some (lit ("id")), some (lit ("name"))] ++ List.replicate 8 none ∧
    (crear_excel_en_memoria tablaEjemplo).grid.getD 2 [] =
      [some (lit ("1")), some (lit ("Acme"))] ++ List.replicate 8 none ∧
    (crear_excel_en_memoria tablaEjemplo).grid.getD 3 [] =
      [some (lit ("2")), some (lit ("Beta"))] ++ List.replicate 8 none ∧
    (crear_excel_en_memoria tablaEjemplo).grid.length = 4 ∧
    (crear_excel_en_memoria tablaEjemplo).tableRef = (2, 1, 4, 10) := by
  decide

/-- C7 counterexample: for the 2-column example table the banner merge still
spans 10 columns, not the claimed `min 10 2 = 2`. -/
theorem C7_counterexample :
    (crear_excel_en_memoria tablaEjemplo).merged = (1, 1, 1, 10) ∧
    min 10 tablaEjemplo.columns.length = 2 ∧
    (crear_excel_en_memoria tablaEjemplo).merged ≠
      (1, 1, 1, min 10 tablaEjemplo.columns.length) := by
  decide

/-- C7 (amended): for every rendered table the banner merge is exactly the
fixed range A1:J1 — it always spans 10 columns, regardless of how few or how
many columns the table has. -/
theorem C7_banner_merge (df : Frame) :
    (crear_excel_en_memoria df).merged = (1, 1, 1, 10) := rfl

/-- C8 counterexample: the first column of the example workbook gets width
40 (the 38-character banner plus padding 2), not the 4 predicted by the
claimed banner-excluding measurement. -/
theorem C8_counterexample :
    (crear_excel_en_memoria tablaEjemplo).colWidths.getD 0 0 = 40 ∧
    claimedColWidth tablaEjemplo 0 = 4 ∧
    (crear_excel_en_memoria tablaEjemplo).colWidths.getD 0 0 ≠
      claimedColWidth tablaEjemplo 0 := by
  decide

/-- Reading a padded worksheet row at any column equals reading the
unpadded row (missing cells read as empty either way). -/
theorem padTo_getD (n : Nat) (l : List (Option Str)) (c : Nat) :
    (padTo n l).getD c none = l.getD c none := by
  unfold padTo
  rcases Nat.lt_or_ge c l.length with h | h
  · rw [List.getD_eq_getElem?_getD, List.getElem?_append_left h,
      ← List.getD_eq_getElem?_getD]
  · rw [List.getD_eq_getElem?_getD, List.getElem?_append_right h,
      List.getElem?_replicate]
    rw [List.getD_eq_getElem?_getD, List.getElem?_eq_none h]
    split <;> simp

/-- Reading a row of written cells at any column equals looking the value up
in the underlying data row. -/
theorem map_some_getD (l : List Str) (c : Nat) :
    (l.map some).getD c none = l[c]? := by
  rw [List.getD_eq_getElem?_getD, List.getElem?_map]
  cases h : l[c]? <;> simp

/-- Indexing a mapped range below its bound applies the function. -/
theorem range_map_getD (n c : Nat) (f : Nat → Nat) (d : Nat) (hc : c < n) :
    ((List.range n).map f).getD c d = f c := by
  rw [List.getD_eq_getElem?_getD, List.getElem?_map, List.getElem?_range hc]
  simp

/-- C8 (amended): every assigned column width equals two plus the longest
displayed value among the banner cell (first column only), the header cell
and the data cells of that column — the banner row is included in the
measurement, not excluded. -/
theorem C8_column_widths (df : Frame) (c : Nat) (hc : c < sheetMaxCol df) :
    (crear_excel_en_memoria df).colWidths.getD c 0 =
      max (if c = 0 then bannerText.length else 0)
        (max (dispLen df.columns[c]?)
          ((df.rows.map (fun r => dispLen r[c]?)).foldr max 0)) + 2 := by
  have hcw : (crear_excel_en_memoria df).colWidths =
      (List.range (sheetMaxCol df)).map
        (colWidth (padTo (sheetMaxCol df) [some bannerText] ::
          padTo (sheetMaxCol df) (df.columns.map some) ::
          df.rows.map (fun r => padTo (sheetMaxCol df) (r.map some)))) := rfl
  rw [hcw, range_map_getD _ _ _ _ hc]
  unfold colWidth
  simp only [List.map_cons, List.foldr_cons, List.map_map, Function.comp_def]
  simp only [padTo_getD, map_some_getD]
  rcases c with _ | c'
  · simp [dispLen, List.getD]
  · simp [dispLen, List.getD]

/-- Witness for C8 (amended) at the second column of the example table. -/
theorem C8_column_widths_witness :
    1 < sheetMaxCol tablaEjemplo ∧
    (crear_excel_en_memoria tablaEjemplo).colWidths.getD 1 0 =
      max (if 1 = 0 then bannerText.length else 0)
        (max (dispLen tablaEjemplo.columns[1]?)
          ((tablaEjemplo.rows.map (fun r => dispLen r[1]?)).foldr max 0)) + 2 :=
  ⟨by decide, C8_column_widths tablaEjemplo 1 (by decide)⟩
